import Mathlib

/-!
# Verification of the Goofguard configuration / verification / leveling / raid core

Shallow embedding of the persistence and state-machine core of `src/main.py`:

* `save_config` / `load_config` / `auto_save_config` (lines 380-479) — the
  ConfigStore over either a relational table (`bot_config`) or per-domain
  JSON flat files;
* the `/verify` slash command (lines 5757-5881) — the captcha verification
  state machine over the `pending_verifications` dict;
* `get_user_data` / `calculate_level` / `xp_for_level` / `add_xp`
  (lines 565-612) — the leveling engine;
* `on_member_join` (lines 751-903) and `raidprotection_slash`
  (lines 4498-4592) — member-join handling and the raid-protection
  configuration.

Python dicts/JSON documents are embedded as the inductive `PyVal`; dict keys
in this program are ints (user ids) or strings, embedded as `PyKey`.
`json.dumps` followed by `json.loads` (which both storage backends perform)
is embedded as `jsonify`, whose one non-identity effect is stringifying
non-string dict keys — exactly what Python's `json` module does.
Mutable module-level dicts are embedded as functions to `Option`, updated
functionally; the wall clock and `random` draws are passed as explicit
arguments.
-/

namespace Goofguard

/-- A Python dict key as used by this program: an int (e.g. `member.id`) or a
string (e.g. `str(guild.id)`). -/
inductive PyKey where
  | kint : Int → PyKey
  | kstr : String → PyKey
deriving DecidableEq, Repr

/-- A Python/JSON value as stored in the configuration payloads of
`src/main.py`: `None`, bools, ints, strings, lists, and dicts. -/
inductive PyVal where
  | pnull : PyVal
  | pbool : Bool → PyVal
  | pint : Int → PyVal
  | pstr : String → PyVal
  | plist : List PyVal → PyVal
  | pdict : List (PyKey × PyVal) → PyVal
deriving Repr

/-- How `json.dumps` renders a dict key: ints become their decimal string. -/
def keyToString : PyKey → String
  | .kint n => toString n
  | .kstr s => s

mutual

/-- The effect of `json.dumps` followed by `json.loads` on a value: every
dict key is coerced to a string, everything else round-trips unchanged.
Both `save_config` backends serialise with `json.dumps` (main.py:398, 408)
and both `load_config` paths parse back (main.py:428, 442). -/
def jsonify : PyVal → PyVal
  | .pnull => .pnull
  | .pbool b => .pbool b
  | .pint n => .pint n
  | .pstr s => .pstr s
  | .plist xs => .plist (jsonifyList xs)
  | .pdict es => .pdict (jsonifyEntries es)

def jsonifyList : List PyVal → List PyVal
  | [] => []
  | x :: xs => jsonify x :: jsonifyList xs

def jsonifyEntries : List (PyKey × PyVal) → List (PyKey × PyVal)
  | [] => []
  | (k, v) :: es => (.kstr (keyToString k), jsonify v) :: jsonifyEntries es

end

mutual

/-- All dict keys occurring anywhere in the value are strings. -/
def strKeys : PyVal → Bool
  | .pnull => true
  | .pbool _ => true
  | .pint _ => true
  | .pstr _ => true
  | .plist xs => strKeysList xs
  | .pdict es => strKeysEntries es

def strKeysList : List PyVal → Bool
  | [] => true
  | x :: xs => strKeys x && strKeysList xs

def strKeysEntries : List (PyKey × PyVal) → Bool
  | [] => true
  | (k, v) :: es =>
    (match k with | .kstr _ => true | .kint _ => false)
      && strKeys v && strKeysEntries es

end

/-- The empty dict `{}`, the default payload everywhere in the store. -/
def emptyDict : PyVal := .pdict []

/-- `CONFIG_FILES` (main.py:339-346): the flat-file name for each domain. -/
def CONFIG_FILES : List (String × String) :=
  [("verification", "verification_config.json"),
   ("pending_verifications", "pending_verifications.json"),
   ("ticket_panel", "ticket_panel_config.json"),
   ("ticket", "ticket_config.json"),
   ("autorole", "autorole_config.json"),
   ("raid_protection", "raid_protection_config.json")]

/-- Filename lookup `CONFIG_FILES[config_type]`, `none` when the domain is
unknown (the `config_type not in CONFIG_FILES` branches). -/
def lookupConfigFile (t : String) : Option String :=
  (CONFIG_FILES.find? (fun p => p.1 == t)).map (fun p => p.2)

/-- The storage state of the process: which backend was selected at boot
(`USE_DATABASE`, main.py:310-326), the live `bot_config` rows keyed by
`config_type` (at most one per type, kept as the parsed payload), and the
flat files on disk keyed by filename (kept as their parsed JSON content). -/
structure StoreState where
  useDatabase : Bool
  dbRows : String → Option PyVal
  files : String → Option PyVal

/-- `save_config(config_type, data)` (main.py:380-413) with `data` supplied.
Database backend: delete every row of this `config_type`, insert one row
holding `json.dumps(data)`, commit. File backend: overwrite the domain's
file with `json.dump(data)`; unknown domains save nothing and return
`False`. Returns the function's boolean result and the new storage state. -/
def save_config (st : StoreState) (t : String) (data : PyVal) :
    Bool × StoreState :=
  if st.useDatabase then
    (true, { st with dbRows := fun u => if u = t then some (jsonify data) else st.dbRows u })
  else
    match lookupConfigFile t with
    | none => (false, st)
    | some fname =>
      (true, { st with files := fun u => if u = fname then some (jsonify data) else st.files u })

/-- The module-level globals dictionary, restricted to the six configuration
dicts declared at main.py:331-336. The leveling dicts `user_levels` and
`guild_level_config` (main.py:305-306) are stored outside the ConfigStore
and are irrelevant to the `globals()` lookup below; no other module global
ends in `_config` with one of the six domain names as its stem. Note the
variable backing the `pending_verifications` domain is named
`pending_verifications`, with no `_config` suffix. -/
def botGlobals (verification pending ticketPanel ticket autorole raidProt : PyVal) :
    String → Option PyVal := fun n =>
  if n = "verification_config" then some verification
  else if n = "pending_verifications" then some pending
  else if n = "ticket_panel_config" then some ticketPanel
  else if n = "ticket_config" then some ticket
  else if n = "autorole_config" then some autorole
  else if n = "raid_protection_config" then some raidProt
  else none

/-- `save_config(config_type)` with the `data` argument omitted
(main.py:384-385): the payload defaults to
`globals().get(config_type + "_config", {})`. `auto_save_config`
(main.py:477-479) always calls `save_config` this way. -/
def save_config_default (globals : String → Option PyVal) (st : StoreState)
    (t : String) : Bool × StoreState :=
  save_config st t ((globals (t ++ "_config")).getD emptyDict)

/-- `load_config(config_type)` (main.py:415-450), the non-error paths.
Database backend: select the row for this `config_type`, parse its payload,
or return `{}` when no row exists. File backend: parse the domain's file,
or return `{}` when the file does not exist; unknown domains return `{}`. -/
def load_config (st : StoreState) (t : String) : PyVal :=
  if st.useDatabase then (st.dbRows t).getD emptyDict
  else
    match lookupConfigFile t with
    | none => emptyDict
    | some fname => (st.files fname).getD emptyDict

/-- `load_config` including its `except` clause (main.py:448-450): a
storage-layer error on any path degrades to `{}` instead of propagating. -/
def load_config_total (errored : Bool) (st : StoreState) (t : String) : PyVal :=
  if errored then emptyDict else load_config st t

/-- `USE_DATABASE` before the connectivity probe (main.py:309-310):
`DATABASE_URL is not None and DATABASE_URL.strip() != ""`. -/
def envWantsDatabase (url : Option String) : Bool :=
  match url with
  | none => false
  | some s => !(s.trim == "")

/-- The boot-time backend decision (main.py:314-328): if a database is
configured, probe it with `SELECT 1`; on failure set `USE_DATABASE = False`
for the rest of the process. No later code path rewrites `USE_DATABASE`. -/
def bootUseDatabase (url : Option String) (probeOk : Bool) : Bool :=
  envWantsDatabase url && probeOk

/-- The storage state right after boot: backend selected from the
environment and the probe, no rows, no files (a fresh install). -/
def freshInstall (url : Option String) (probeOk : Bool) : StoreState :=
  { useDatabase := bootUseDatabase url probeOk
    dbRows := fun _ => none
    files := fun _ => none }

/-- Fold a sequence of saves over the store, discarding boolean results —
the shape of every persistence sequence the program performs. -/
def runSaves (st : StoreState) : List (String × PyVal) → StoreState
  | [] => st
  | (t, d) :: rest => runSaves (save_config st t d).2 rest

/-! ## Verification state machine (`/verify`, `pending_verifications`) -/

/-- One entry of the `pending_verifications` dict
(main.py:332, created at main.py:765-771 and in `manualverify`). -/
structure PendingRec where
  guild_id : Int
  captcha_code : String
  attempts : Nat
  issued_by : Option Int
  auto_generated : Bool
deriving DecidableEq, Repr

/-- `pending_verifications`: a dict keyed by the integer `user.id`. -/
def PendingMap := Int → Option PendingRec

/-- Per-guild `verification_config` entry (main.py:331). -/
structure VerifConf where
  enabled : Bool
  role : Int
  channel : Option Int
deriving DecidableEq, Repr

/-- `verification_config`: keyed by `str(guild.id)`; `str` is injective on
ints so the key is embedded as the int itself. -/
def VerifConfMap := Int → Option VerifConf

/-- Python's `str.upper()` as used in the captcha comparison
(main.py:5772): upper-case every character. Character-wise mapping over the
string's characters (what `String.toUpper` does, written out so it
computes by structural recursion). -/
def pyUpper (s : String) : String := String.mk (s.data.map Char.toUpper)

/-- The user-visible outcome of one `/verify` invocation
(main.py:5757-5881): each branch sends a distinct embed. -/
inductive VerifyResult where
  /-- "No pending verification found!" (main.py:5765). -/
  | noPending
  /-- "VERIFICATION SUCCESSFUL!" (main.py:5818-5830); `roleGiven` is
  whether the verified-role side effect succeeded — on failure the embed
  carries the role error but is still the success embed (main.py:5804-5806). -/
  | verified (roleGiven : Bool)
  /-- "VERIFICATION FAILED!" after exhausting attempts (main.py:5844-5859). -/
  | exhausted
  /-- "Wrong Code!", retry allowed (main.py:5864-5873). -/
  | wrongCode (attemptsUsed : Nat)
deriving DecidableEq, Repr

/-- The in-memory effect and result of the `/verify` slash command body
(main.py:5757-5873). `roleOk` stands for the success of the
`member.add_roles` side effect together with its preconditions (guild
found, role found, member found); when it is `false` the code records a
`role_error` but follows the same success path. The `auto_save_config`
calls the command performs are modelled separately (they act on the
ConfigStore, see `save_config_default`). -/
def verify_slash (pending : PendingMap) (user_id : Int) (code : String)
    (roleOk : Bool) : VerifyResult × PendingMap :=
  match pending user_id with
  | none => (.noPending, pending)
  | some rec =>
    if pyUpper code = pyUpper rec.captcha_code then
      (.verified roleOk, fun u => if u = user_id then none else pending u)
    else
      let attempts := rec.attempts + 1
      if attempts ≥ 3 then
        (.exhausted, fun u => if u = user_id then none else pending u)
      else
        (.wrongCode attempts,
         fun u => if u = user_id then some { rec with attempts := attempts } else pending u)

/-- Run a list of `/verify` attempts for one user, collecting results;
each attempt's `roleOk` oracle is paired with its submitted code. -/
def runVerifyAttempts (pending : PendingMap) (user_id : Int) :
    List (String × Bool) → List VerifyResult × PendingMap
  | [] => ([], pending)
  | (code, roleOk) :: rest =>
    let (r, p) := verify_slash pending user_id code roleOk
    let (rs, p2) := runVerifyAttempts p user_id rest
    (r :: rs, p2)

/-! ## Leveling engine (`user_levels`, `add_xp`) -/

/-- One record of `user_levels[guild][user]` (main.py:574-579). -/
structure UserRecord where
  xp : Int
  level : Int
  messages : Int
  last_xp_gain : Int
deriving DecidableEq, Repr

/-- The lazily-created default record (main.py:574-579). -/
def initUserRecord : UserRecord :=
  { xp := 0, level := 1, messages := 0, last_xp_gain := 0 }

/-- `user_levels`, keyed by `(str(guild_id), str(user_id))`; `str` is
injective on ints so keys are embedded as the int pair. -/
def LevelMap := Int × Int → Option UserRecord

/-- `get_user_data(guild_id, user_id)` (main.py:565-581): the record, or
the default when absent. -/
def get_user_data (levels : LevelMap) (g u : Int) : UserRecord :=
  (levels (g, u)).getD initUserRecord

/-- `get_user_data` also inserts the default record into `user_levels`
when absent; this is its effect on the map. -/
def get_user_data_map (levels : LevelMap) (g u : Int) : LevelMap :=
  fun k => if k = (g, u) then some (get_user_data levels g u) else levels k

/-- `calculate_level(xp)` (main.py:583-585): `int((xp / 100) ** 0.5) + 1`.
The Python float expression `(xp / 100) ** 0.5` is modelled as exact real
arithmetic, and `int(...)` on the non-negative result as the floor; the
theorem `calculate_level_eq_floor_sqrt` below shows this embedding equals
`⌊√(xp / 100)⌋ + 1` over the reals. `xp` is never negative in the program
(`Int.toNat` makes the embedding total). -/
def calculate_level (xp : Int) : Int :=
  (Nat.sqrt (xp.toNat / 100) : Int) + 1

/-- `xp_for_level(level)` (main.py:587-589): `int(((level - 1) ** 2) * 100)`,
exact integer arithmetic. -/
def xp_for_level (level : Int) : Int :=
  ((level - 1) ^ 2) * 100

/-- The outcome of `add_xp` (main.py:591-612): `none` models the
`return None, False` cooldown path; otherwise the updated record and the
`level_up` boolean. `persisted` records whether `save_user_data()` ran. -/
structure AddXpOutcome where
  result : Option (UserRecord × Bool)
  levels : LevelMap
  persisted : Bool

/-- `add_xp(guild_id, user_id, xp_gain)` at wall-clock time `now`
(main.py:591-612). Cooldown: if fewer than 60 seconds passed since
`last_xp_gain`, return `None, False` with nothing written and nothing
saved. Otherwise add the XP, bump `messages`, stamp `last_xp_gain`,
recompute `level` from `calculate_level`, persist via `save_user_data`,
and report whether the level strictly increased. -/
def add_xp (levels : LevelMap) (g u xp_gain now : Int) : AddXpOutcome :=
  let ud := get_user_data levels g u
  let levels1 := get_user_data_map levels g u
  if now - ud.last_xp_gain < 60 then
    { result := none, levels := levels1, persisted := false }
  else
    let new_xp := ud.xp + xp_gain
    let new_level := calculate_level new_xp
    let ud2 : UserRecord :=
      { xp := new_xp, level := new_level, messages := ud.messages + 1,
        last_xp_gain := now }
    { result := some (ud2, decide (new_level > ud.level))
      levels := fun k => if k = (g, u) then some ud2 else levels1 k
      persisted := true }

/-- Apply a sequence of `add_xp` calls (pairs of XP gain and time) for one
(guild, user) key, discarding results. -/
def runAddXp (levels : LevelMap) (g u : Int) : List (Int × Int) → LevelMap
  | [] => levels
  | (gain, now) :: rest => runAddXp (add_xp levels g u gain now).levels g u rest

/-! ## Raid protection and the member-join handler -/

/-- One entry of `raid_protection_config` as written by
`raidprotection_slash` on `enable` (main.py:4514-4520). -/
structure RaidConf where
  enabled : Bool
  threshold : Int
  action : String
  recent_joins : List Int
  locked_down : Bool
deriving DecidableEq, Repr

/-- `raid_protection_config`, keyed by `str(guild.id)`. -/
def RaidConfMap := Int → Option RaidConf

/-- The `enable` branch of `raidprotection_slash` (main.py:4505-4520):
after validating `1 <= threshold <= 50` and the response keyword, store a
fresh config with an empty `recent_joins` window and `locked_down = False`.
Returns `none` (no change) when validation fails. -/
def raidprotection_enable (cfg : RaidConfMap) (guild threshold : Int)
    (response : String) : Option RaidConfMap :=
  if ¬(1 ≤ threshold ∧ threshold ≤ 50) then none
  else if ¬(response = "lockdown" ∨ response = "kick" ∨ response = "ban") then none
  else some (fun g =>
    if g = guild then
      some { enabled := true, threshold := threshold, action := response,
             recent_joins := [], locked_down := false }
    else cfg g)

/-- The state `on_member_join` (main.py:751-903) touches that is relevant
to verification and raid protection. Welcome/autorole messaging is pure
presentation and carries no state of these components. -/
structure JoinState where
  pending : PendingMap
  raid : RaidConfMap

/-- The full state effect of `on_member_join` (main.py:751-903) for a
joining member, embedded from the source: bots are skipped; if the guild
has verification enabled, a fresh three-digit captcha (`captcha`, drawn by
`random.randint(100, 999)` at main.py:762) is stored in
`pending_verifications` with `attempts = 0`, overwriting any previous
entry for that user. The handler reads and writes NO other component
state: in particular it never consults `raid_protection_config`, never
appends to any `recent_joins` window, and produces no raid classification
— there is no other join handler in the program. -/
def on_member_join (verif : VerifConfMap) (st : JoinState)
    (guild member captcha : Int) (isBot : Bool) : JoinState :=
  if isBot then st
  else
    match verif guild with
    | some vc =>
      if vc.enabled then
        { st with pending := fun u =>
            if u = member then
              some { guild_id := guild, captcha_code := toString captcha,
                     attempts := 0, issued_by := none, auto_generated := true }
            else st.pending u }
      else st
    | none => st

/-- Fold a burst of member joins (member id, captcha draw, timestamp) into
the state; the join timestamps are listed to make the claim about a
time-window explicit, but `on_member_join` ignores them. -/
def runJoins (verif : VerifConfMap) (st : JoinState) (guild : Int) :
    List (Int × Int × Int) → JoinState
  | [] => st
  | (member, captcha, _now) :: rest =>
    runJoins verif (on_member_join verif st guild member captcha false) guild rest

/-- The sequence of map states visited while running a list of `add_xp`
calls (pairs of XP gain and time) for one (guild, user) key: the initial
map followed by the map after each call. -/
def addXpStates (levels : LevelMap) (g u : Int) : List (Int × Int) → List LevelMap
  | [] => [levels]
  | (gain, now) :: rest =>
    levels :: addXpStates (add_xp levels g u gain now).levels g u rest

/-- The per-record invariant `add_xp` maintains at its key: XP is
non-negative and the stored level is the one recomputed from the XP. An
absent record trivially satisfies it (its lazily-created default has
`xp = 0`, `level = 1 = calculate_level 0`). -/
def LevelInv : Option UserRecord → Prop
  | none => True
  | some r => 0 ≤ r.xp ∧ r.level = calculate_level r.xp

/-- The empty leveling map: no record yet for any (guild, user) key. -/
def emptyLevels : LevelMap := fun _ => none

/-- A store running on the relational backend with no rows and no files. -/
def dbStore : StoreState :=
  { useDatabase := true, dbRows := fun _ => none, files := fun _ => none }

/-- A store running on the flat-file backend with no files. -/
def fileStore : StoreState :=
  { useDatabase := false, dbRows := fun _ => none, files := fun _ => none }

/-- An empty `pending_verifications` dict. -/
def emptyPending : PendingMap := fun _ => none

/-- A `pending_verifications` dict holding exactly one record. -/
def singlePending (u : Int) (rec : PendingRec) : PendingMap :=
  fun v => if v = u then some rec else none

/-! ## Helper lemmas -/

mutual

/-- `jsonify` is the identity on values all of whose dict keys are strings. -/
theorem jsonify_eq_self : ∀ p : PyVal, strKeys p = true → jsonify p = p
  | .pnull, _ => rfl
  | .pbool _, _ => rfl
  | .pint _, _ => rfl
  | .pstr _, _ => rfl
  | .plist xs, h => by
    simp only [jsonify]
    exact congrArg PyVal.plist (jsonifyList_eq_self xs (by simpa [strKeys] using h))
  | .pdict es, h => by
    simp only [jsonify]
    exact congrArg PyVal.pdict (jsonifyEntries_eq_self es (by simpa [strKeys] using h))

theorem jsonifyList_eq_self : ∀ xs : List PyVal, strKeysList xs = true → jsonifyList xs = xs
  | [], _ => rfl
  | x :: xs, h => by
    simp only [strKeysList, Bool.and_eq_true] at h
    simp only [jsonifyList]
    rw [jsonify_eq_self x h.1, jsonifyList_eq_self xs h.2]

theorem jsonifyEntries_eq_self :
    ∀ es : List (PyKey × PyVal), strKeysEntries es = true → jsonifyEntries es = es
  | [], _ => rfl
  | (k, v) :: es, h => by
    simp only [strKeysEntries, Bool.and_eq_true] at h
    obtain ⟨⟨hk, hv⟩, hes⟩ := h
    simp only [jsonifyEntries]
    rw [jsonify_eq_self v hv, jsonifyEntries_eq_self es hes]
    cases k with
    | kint n => simp at hk
    | kstr s => rfl

end

/-- `save_config` never changes the backend selection: `USE_DATABASE` is
decided at boot and no call path rewrites it. -/
theorem save_config_useDatabase (st : StoreState) (t : String) (d : PyVal) :
    (save_config st t d).2.useDatabase = st.useDatabase := by
  unfold save_config
  split
  · rfl
  · split <;> rfl

/-- Any sequence of saves leaves the backend selection unchanged. -/
theorem runSaves_useDatabase (ops : List (String × PyVal)) :
    ∀ st : StoreState, (runSaves st ops).useDatabase = st.useDatabase := by
  induction ops with
  | nil => intro st; rfl
  | cons op rest ih =>
    intro st
    obtain ⟨t, d⟩ := op
    rw [runSaves, ih, save_config_useDatabase]

/-- The floor of the real `√(n / 100)` is `Nat.sqrt` of the integer
division `n / 100`: the leveling formula's float expression agrees with the
integer embedding. -/
theorem floor_sqrt_div_100 (n : ℕ) :
    ⌊Real.sqrt ((n : ℝ) / 100)⌋ = (Nat.sqrt (n / 100) : ℤ) := by
  have h100 : (0 : ℝ) < 100 := by norm_num
  have hx : (0 : ℝ) ≤ (n : ℝ) / 100 := by positivity
  rw [Int.floor_eq_iff]
  constructor
  · rw [Real.le_sqrt (by positivity) hx, le_div_iff₀ h100]
    have hnat : Nat.sqrt (n / 100) ^ 2 * 100 ≤ n := by
      have h1 : Nat.sqrt (n / 100) ^ 2 ≤ n / 100 := Nat.sqrt_le' (n / 100)
      calc Nat.sqrt (n / 100) ^ 2 * 100 ≤ n / 100 * 100 :=
            Nat.mul_le_mul_right 100 h1
        _ ≤ n := Nat.div_mul_le_self n 100
    exact_mod_cast hnat
  · rw [show ((Nat.sqrt (n / 100) : ℤ) : ℝ) + 1 = ((Nat.sqrt (n / 100) + 1 : ℕ) : ℝ) by push_cast; ring,
        Real.sqrt_lt' (by positivity), div_lt_iff₀ h100]
    have hnat : n < (Nat.sqrt (n / 100) + 1) ^ 2 * 100 := by
      have h1 : n / 100 < (Nat.sqrt (n / 100) + 1) ^ 2 := Nat.lt_succ_sqrt' (n / 100)
      have := (Nat.div_lt_iff_lt_mul (by norm_num : 0 < 100)).mp h1
      exact this
    exact_mod_cast hnat

/-- `calculate_level` is monotone non-decreasing. -/
theorem calculate_level_mono {x y : Int} (h : x ≤ y) :
    calculate_level x ≤ calculate_level y := by
  unfold calculate_level
  have h1 : x.toNat ≤ y.toNat := Int.toNat_le_toNat h
  have h2 : Nat.sqrt (x.toNat / 100) ≤ Nat.sqrt (y.toNat / 100) :=
    Nat.sqrt_le_sqrt (Nat.div_le_div_right h1)
  omega

/-- `calculate_level` never returns less than 1. -/
theorem one_le_calculate_level (x : Int) : 1 ≤ calculate_level x := by
  unfold calculate_level
  omega

/-- The observed record of a key satisfying `LevelInv` has non-negative XP
and its level equal to `calculate_level` of its XP. -/
theorem levelInv_observed {levels : LevelMap} {g u : Int}
    (h : LevelInv (levels (g, u))) :
    0 ≤ (get_user_data levels g u).xp
      ∧ (get_user_data levels g u).level = calculate_level (get_user_data levels g u).xp := by
  unfold get_user_data
  cases hrec : levels (g, u) with
  | none =>
    constructor
    · simp [initUserRecord]
    · simp [initUserRecord, calculate_level]
  | some r =>
    rw [hrec] at h
    simpa using h

/-- `get_user_data_map` stores the observed record at its key. -/
theorem get_user_data_map_at (levels : LevelMap) (g u : Int) :
    get_user_data_map levels g u (g, u) = some (get_user_data levels g u) := by
  unfold get_user_data_map
  simp

/-- On the cooldown path, `add_xp` leaves the map as `get_user_data_map`
(the lazily-inserted default only). -/
theorem add_xp_levels_cooldown (levels : LevelMap) (g u gain now : Int)
    (h : now - (get_user_data levels g u).last_xp_gain < 60) :
    (add_xp levels g u gain now).levels = get_user_data_map levels g u := by
  unfold add_xp
  simp [h]

/-- On the gain path, the observed record after `add_xp` is the updated
record written by the source: XP added, message count bumped, time stamped,
level recomputed. -/
theorem add_xp_observed_gain (levels : LevelMap) (g u gain now : Int)
    (h : ¬ now - (get_user_data levels g u).last_xp_gain < 60) :
    get_user_data (add_xp levels g u gain now).levels g u =
      { xp := (get_user_data levels g u).xp + gain,
        level := calculate_level ((get_user_data levels g u).xp + gain),
        messages := (get_user_data levels g u).messages + 1,
        last_xp_gain := now } := by
  have h2 : ¬ now - ((levels (g, u)).getD initUserRecord).last_xp_gain < 60 := h
  unfold add_xp get_user_data
  simp [h2]

/-- On the gain path, the stored entry after `add_xp` is that record. -/
theorem add_xp_stored_gain (levels : LevelMap) (g u gain now : Int)
    (h : ¬ now - (get_user_data levels g u).last_xp_gain < 60) :
    (add_xp levels g u gain now).levels (g, u) =
      some { xp := (get_user_data levels g u).xp + gain,
             level := calculate_level ((get_user_data levels g u).xp + gain),
             messages := (get_user_data levels g u).messages + 1,
             last_xp_gain := now } := by
  unfold add_xp
  simp [h]

/-- On the cooldown path, `add_xp` reports the suppressed result. -/
theorem add_xp_result_cooldown (levels : LevelMap) (g u gain now : Int)
    (h : now - (get_user_data levels g u).last_xp_gain < 60) :
    (add_xp levels g u gain now).result = none := by
  unfold add_xp
  simp [h]

/-- On the cooldown path, `add_xp` persists nothing. -/
theorem add_xp_persisted_cooldown (levels : LevelMap) (g u gain now : Int)
    (h : now - (get_user_data levels g u).last_xp_gain < 60) :
    (add_xp levels g u gain now).persisted = false := by
  unfold add_xp
  simp [h]

/-- Off the cooldown path, `add_xp` reports a (record, level-up) result. -/
theorem add_xp_result_gain (levels : LevelMap) (g u gain now : Int)
    (h : ¬ now - (get_user_data levels g u).last_xp_gain < 60) :
    (add_xp levels g u gain now).result ≠ none := by
  unfold add_xp
  simp [h]

/-- One `add_xp` step with a non-negative gain preserves `LevelInv` and
never decreases the observed level. -/
theorem add_xp_step (levels : LevelMap) (g u gain now : Int)
    (hgain : 0 ≤ gain) (hinv : LevelInv (levels (g, u))) :
    LevelInv ((add_xp levels g u gain now).levels (g, u))
      ∧ (get_user_data levels g u).level
          ≤ (get_user_data (add_xp levels g u gain now).levels g u).level := by
  obtain ⟨hxp, hlvl⟩ := levelInv_observed hinv
  by_cases hcd : now - (get_user_data levels g u).last_xp_gain < 60
  · rw [add_xp_levels_cooldown levels g u gain now hcd]
    constructor
    · rw [get_user_data_map_at]
      exact ⟨hxp, hlvl⟩
    · unfold get_user_data
      rw [get_user_data_map_at]
      simp [get_user_data]
  · constructor
    · rw [add_xp_stored_gain levels g u gain now hcd]
      refine ⟨?_, rfl⟩
      show 0 ≤ (get_user_data levels g u).xp + gain
      omega
    · rw [add_xp_observed_gain levels g u gain now hcd]
      rw [hlvl]
      exact calculate_level_mono (by omega)

/-- The first state in `addXpStates` is the initial map. -/
theorem addXpStates_head (levels : LevelMap) (g u : Int) (ops : List (Int × Int)) :
    (addXpStates levels g u ops).head? = some levels := by
  cases ops with
  | nil => rfl
  | cons op rest => obtain ⟨gain, now⟩ := op; rfl

/-- Running `add_xp` calls with non-negative gains from a state satisfying
`LevelInv` yields a non-decreasing chain of observed levels, every visited
state satisfying the invariant. -/
theorem addXp_chain (g u : Int) (ops : List (Int × Int)) :
    ∀ levels : LevelMap, LevelInv (levels (g, u)) → (∀ p ∈ ops, 0 ≤ p.1) →
      List.Chain'
          (fun a b : LevelMap =>
            (get_user_data a g u).level ≤ (get_user_data b g u).level)
          (addXpStates levels g u ops)
        ∧ ∀ lv ∈ addXpStates levels g u ops, LevelInv (lv (g, u)) := by
  induction ops with
  | nil =>
    intro levels hinv _
    constructor
    · simp [addXpStates]
    · intro lv hlv
      simp only [addXpStates, List.mem_singleton] at hlv
      rw [hlv]
      exact hinv
  | cons op rest ih =>
    intro levels hinv hops
    obtain ⟨gain, now⟩ := op
    have hgain : 0 ≤ gain := hops (gain, now) (List.mem_cons_self _ _)
    have hstep := add_xp_step levels g u gain now hgain hinv
    have hrest := ih (add_xp levels g u gain now).levels hstep.1
      (fun p hp => hops p (List.mem_cons_of_mem _ hp))
    constructor
    · rw [addXpStates, List.chain'_cons']
      constructor
      · intro y hy
        rw [addXpStates_head] at hy
        cases hy
        exact hstep.2
      · exact hrest.1
    · intro lv hlv
      rw [addXpStates] at hlv
      rcases List.mem_cons.mp hlv with h | h
      · rw [h]
        exact hinv
      · exact hrest.2 lv h

/-- `on_member_join` never reads or writes the raid-protection state. -/
theorem on_member_join_raid (verif : VerifConfMap) (st : JoinState)
    (guild member captcha : Int) (isBot : Bool) :
    (on_member_join verif st guild member captcha isBot).raid = st.raid := by
  unfold on_member_join
  split
  · rfl
  · split
    · split <;> rfl
    · rfl

/-- No sequence of member joins changes the raid-protection state. -/
theorem runJoins_raid (verif : VerifConfMap) (guild : Int)
    (joins : List (Int × Int × Int)) :
    ∀ st : JoinState, (runJoins verif st guild joins).raid = st.raid := by
  induction joins with
  | nil => intro st; rfl
  | cons j rest ih =>
    intro st
    obtain ⟨member, captcha, now⟩ := j
    rw [runJoins, ih, on_member_join_raid]

/-! ## Claim theorems -/

/-- C9: for every non-negative integer xp, the computed level equals
`floor(sqrt(xp / 100)) + 1` (read over the reals) and `xp_required(level)`
equals `(level - 1)^2 * 100`; in particular `xp = 0` gives level 1,
`xp = 100` gives level 2, and `xp = 400` gives level 3. -/
theorem claim_C9_level_formula (xp : ℕ) :
    calculate_level (xp : Int) = ⌊Real.sqrt ((xp : ℝ) / 100)⌋ + 1
      ∧ (∀ level : Int, xp_for_level level = (level - 1) ^ 2 * 100)
      ∧ calculate_level 0 = 1 ∧ calculate_level 100 = 2
      ∧ calculate_level 400 = 3 ∧ xp_for_level 3 = 400 := by
  refine ⟨?_, fun _ => rfl, by norm_num [calculate_level],
    by rw [show calculate_level 100 = (Nat.sqrt 1 : ℤ) + 1 from rfl]; norm_num,
    by rw [show calculate_level 400 = (Nat.sqrt 4 : ℤ) + 1 from rfl]; norm_num,
    by decide⟩
  unfold calculate_level
  rw [floor_sqrt_div_100, Int.toNat_natCast]

/-- C3: `save_config(t)` with the `data` argument omitted looks up the
global `t + "_config"`; for `t = "pending_verifications"` no such global
exists (the backing dict is named `pending_verifications`), so every
`auto_save_config('pending_verifications')` — performed by every `/verify`
attempt — persists the empty object regardless of the in-memory pending
state, under either backend. -/
theorem claim_C3_autosave_pending_clobbers (st : StoreState)
    (verification pending ticketPanel ticket autorole raidProt : PyVal) :
    botGlobals verification pending ticketPanel ticket autorole raidProt
        ("pending_verifications" ++ "_config") = none
      ∧ load_config
          (save_config_default
            (botGlobals verification pending ticketPanel ticket autorole raidProt)
            st "pending_verifications").2
          "pending_verifications" = emptyDict := by
  refine ⟨rfl, ?_⟩
  obtain ⟨db, rows, files⟩ := st
  cases db
  · rfl
  · rfl

/-- C8: with the relational backend configured but the startup probe
failing, the store runs on flat files and stays there across any sequence
of saves (no per-call retry); `load` on a fresh install returns the empty
default for every domain under either boot outcome, and a storage-layer
error also degrades to the empty default. -/
theorem claim_C8_fallback_and_empty_default (url : Option String)
    (ops : List (String × PyVal)) (probeOk : Bool) (st : StoreState)
    (t : String) :
    bootUseDatabase url false = false
      ∧ (runSaves (freshInstall url false) ops).useDatabase = false
      ∧ load_config (freshInstall url probeOk) t = emptyDict
      ∧ load_config_total true st t = emptyDict := by
  refine ⟨Bool.and_false _, ?_, ?_, rfl⟩
  · rw [runSaves_useDatabase]
    exact Bool.and_false _
  · unfold load_config
    split
    · rfl
    · split <;> rfl

/-- C10: the level formula is monotone non-decreasing in XP, and along any
sequence of `add_xp` calls with non-negative gains from a state whose
record satisfies the engine's invariant (in particular the lazily-created
default), the observed level never decreases and XP and level never become
negative. -/
theorem claim_C10_level_monotone (x y g u : Int) (ops : List (Int × Int))
    (levels : LevelMap) (hxy : x ≤ y) (hinv : LevelInv (levels (g, u)))
    (hops : ∀ p ∈ ops, 0 ≤ p.1) :
    calculate_level x ≤ calculate_level y
      ∧ List.Chain'
          (fun a b : LevelMap =>
            (get_user_data a g u).level ≤ (get_user_data b g u).level)
          (addXpStates levels g u ops)
      ∧ ∀ lv ∈ addXpStates levels g u ops,
          0 ≤ (get_user_data lv g u).xp ∧ 1 ≤ (get_user_data lv g u).level := by
  obtain ⟨hchain, hall⟩ := addXp_chain g u ops levels hinv hops
  refine ⟨calculate_level_mono hxy, hchain, ?_⟩
  intro lv hlv
  obtain ⟨hxp, hlvl⟩ := levelInv_observed (hall lv hlv)
  refine ⟨hxp, ?_⟩
  rw [hlvl]
  exact one_le_calculate_level _

/-- Witness for C10: two concrete gains 60 seconds apart from the empty
map, with concrete XP bounds. -/
theorem claim_C10_level_monotone_witness :
    calculate_level 0 ≤ calculate_level 150
      ∧ List.Chain'
          (fun a b : LevelMap =>
            (get_user_data a 1 2).level ≤ (get_user_data b 1 2).level)
          (addXpStates emptyLevels 1 2 [(20, 100), (25, 200)])
      ∧ ∀ lv ∈ addXpStates emptyLevels 1 2 [(20, 100), (25, 200)],
          0 ≤ (get_user_data lv 1 2).xp ∧ 1 ≤ (get_user_data lv 1 2).level :=
  claim_C10_level_monotone 0 150 1 2 [(20, 100), (25, 200)] emptyLevels
    (by decide) trivial (by decide)

/-- C4: with a pending record at 0 attempts used, three attempts with
incorrect codes produce WRONG_CODE, WRONG_CODE, EXHAUSTED — the third
deletes the record — and a fourth attempt returns NO_PENDING. -/
theorem claim_C4_attempts_exhausted (pending : PendingMap) (u : Int)
    (rec : PendingRec) (c1 c2 c3 c4 : String) (r1 r2 r3 r4 : Bool)
    (hrec : pending u = some rec) (h0 : rec.attempts = 0)
    (h1 : ¬ pyUpper c1 = pyUpper rec.captcha_code)
    (h2 : ¬ pyUpper c2 = pyUpper rec.captcha_code)
    (h3 : ¬ pyUpper c3 = pyUpper rec.captcha_code) :
    (runVerifyAttempts pending u
        [(c1, r1), (c2, r2), (c3, r3), (c4, r4)]).1
      = [.wrongCode 1, .wrongCode 2, .exhausted, .noPending]
    ∧ (runVerifyAttempts pending u
        [(c1, r1), (c2, r2), (c3, r3), (c4, r4)]).2 u = none := by
  simp [runVerifyAttempts, verify_slash, hrec, h0, h1, h2, h3]

/-- Witness for C4: concrete captcha "123", three wrong codes, then one
more attempt. -/
theorem claim_C4_attempts_exhausted_witness :
    (runVerifyAttempts
        (singlePending 7 { guild_id := 5, captcha_code := "123", attempts := 0,
                           issued_by := none, auto_generated := true }) 7
        [("124", true), ("125", true), ("126", true), ("123", true)]).1
      = [.wrongCode 1, .wrongCode 2, .exhausted, .noPending]
    ∧ (runVerifyAttempts
        (singlePending 7 { guild_id := 5, captcha_code := "123", attempts := 0,
                           issued_by := none, auto_generated := true }) 7
        [("124", true), ("125", true), ("126", true), ("123", true)]).2 7 = none :=
  claim_C4_attempts_exhausted
    (singlePending 7 { guild_id := 5, captcha_code := "123", attempts := 0,
                       issued_by := none, auto_generated := true }) 7
    { guild_id := 5, captcha_code := "123", attempts := 0,
      issued_by := none, auto_generated := true }
    "124" "125" "126" "123" true true true true
    (by decide) rfl (by decide) (by decide) (by decide)

/-- C5: an attempt whose code matches the issued code case-insensitively
returns the success outcome and removes the pending record, for either
outcome of the role-granting side effect — in particular when it fails
(`roleOk = false`) the record is still deleted and the result is still the
success embed (carrying the role error). -/
theorem claim_C5_verified_removes_record (pending : PendingMap) (u : Int)
    (rec : PendingRec) (code : String) (roleOk : Bool)
    (hrec : pending u = some rec)
    (hcode : pyUpper code = pyUpper rec.captcha_code) :
    (verify_slash pending u code roleOk).1 = .verified roleOk
      ∧ (verify_slash pending u code roleOk).2 u = none := by
  simp [verify_slash, hrec, hcode]

/-- Witness for C5: lower-case submission "abc" against issued code "AbC",
with the role side effect failing. -/
theorem claim_C5_verified_removes_record_witness :
    (verify_slash
        (singlePending 7 { guild_id := 5, captcha_code := "AbC", attempts := 0,
                           issued_by := none, auto_generated := true }) 7
        "abc" false).1 = .verified false
      ∧ (verify_slash
          (singlePending 7 { guild_id := 5, captcha_code := "AbC", attempts := 0,
                             issued_by := none, auto_generated := true }) 7
          "abc" false).2 7 = none :=
  claim_C5_verified_removes_record
    (singlePending 7 { guild_id := 5, captcha_code := "AbC", attempts := 0,
                       issued_by := none, auto_generated := true }) 7
    { guild_id := 5, captcha_code := "AbC", attempts := 0,
      issued_by := none, auto_generated := true }
    "abc" false (by decide) (by decide)

/-- C6: within the 60-second cooldown `add_xp` is a no-op returning the
suppressed result — the observed record (all four fields) is unchanged and
nothing is persisted; two calls less than 60 seconds apart produce at most
one increment, and a second call at least 60 seconds after a successful
one produces an increment. -/
theorem claim_C6_cooldown (levels : LevelMap) (g u gain t1 gain2 t2 : Int) :
    (t1 - (get_user_data levels g u).last_xp_gain < 60 →
        (add_xp levels g u gain t1).result = none
        ∧ get_user_data (add_xp levels g u gain t1).levels g u
            = get_user_data levels g u
        ∧ (add_xp levels g u gain t1).persisted = false)
    ∧ (t2 - t1 < 60 →
        ¬((add_xp levels g u gain t1).result ≠ none
          ∧ (add_xp (add_xp levels g u gain t1).levels g u gain2 t2).result ≠ none))
    ∧ ((add_xp levels g u gain t1).result ≠ none → 60 ≤ t2 - t1 →
        (add_xp (add_xp levels g u gain t1).levels g u gain2 t2).result ≠ none) := by
  refine ⟨?_, ?_, ?_⟩
  · intro hcd
    refine ⟨add_xp_result_cooldown levels g u gain t1 hcd, ?_,
      add_xp_persisted_cooldown levels g u gain t1 hcd⟩
    rw [add_xp_levels_cooldown levels g u gain t1 hcd]
    unfold get_user_data
    rw [get_user_data_map_at]
    simp [get_user_data]
  · intro hgap hboth
    obtain ⟨h1, h2⟩ := hboth
    by_cases hcd : t1 - (get_user_data levels g u).last_xp_gain < 60
    · exact h1 (add_xp_result_cooldown levels g u gain t1 hcd)
    · apply h2
      apply add_xp_result_cooldown
      rw [add_xp_observed_gain levels g u gain t1 hcd]
      show t2 - t1 < 60
      exact hgap
  · intro h1 hgap
    by_cases hcd : t1 - (get_user_data levels g u).last_xp_gain < 60
    · exact absurd (add_xp_result_cooldown levels g u gain t1 hcd) h1
    · apply add_xp_result_gain
      rw [add_xp_observed_gain levels g u gain t1 hcd]
      show ¬ t2 - t1 < 60
      omega

/-- Witness for C6: the three parts at concrete times — a call at t=30
against a fresh record (cooldown), two calls 20 seconds apart, and a
successful call at t=100 followed 60 seconds later by another. -/
theorem claim_C6_cooldown_witness :
    ((add_xp emptyLevels 1 2 20 30).result = none
      ∧ get_user_data (add_xp emptyLevels 1 2 20 30).levels 1 2
          = get_user_data emptyLevels 1 2
      ∧ (add_xp emptyLevels 1 2 20 30).persisted = false)
    ∧ ¬((add_xp emptyLevels 1 2 20 70).result ≠ none
        ∧ (add_xp (add_xp emptyLevels 1 2 20 70).levels 1 2 25 89).result ≠ none)
    ∧ (add_xp (add_xp emptyLevels 1 2 20 100).levels 1 2 25 160).result ≠ none :=
  ⟨(claim_C6_cooldown emptyLevels 1 2 20 30 25 89).1 (by decide),
   (claim_C6_cooldown emptyLevels 1 2 20 70 25 89).2.1 (by decide),
   (claim_C6_cooldown emptyLevels 1 2 20 100 25 160).2.2 (by decide) (by decide)⟩

/-- C2 (counterexample): a payload whose dict is keyed by an int — exactly
the shape of `pending_verifications`, keyed by the integer `member.id` —
does not round-trip through save/load on either backend: JSON
serialisation stringifies the key. -/
theorem claim_C2_roundtrip_counterexample :
    load_config (save_config dbStore "pending_verifications"
        (.pdict [(.kint 1, .pstr "a")])).2 "pending_verifications"
      ≠ PyVal.pdict [(.kint 1, .pstr "a")]
    ∧ load_config (save_config fileStore "pending_verifications"
        (.pdict [(.kint 1, .pstr "a")])).2 "pending_verifications"
      ≠ PyVal.pdict [(.kint 1, .pstr "a")] := by
  refine ⟨fun h => ?_, fun h => ?_⟩
  · have h2 : PyVal.pdict [(.kstr "1", .pstr "a")]
        = PyVal.pdict [(.kint 1, .pstr "a")] := h
    simp at h2
  · have h2 : PyVal.pdict [(.kstr "1", .pstr "a")]
        = PyVal.pdict [(.kint 1, .pstr "a")] := h
    simp at h2

/-- C2 (amended): for every recognized domain and every payload all of
whose dict keys are strings (a JSON document proper), `load` immediately
after `save` returns a structurally equal value, under both the relational
and the flat-file backend. -/
theorem claim_C2_roundtrip_amended (st : StoreState) (t : String) (p : PyVal)
    (hdom : (lookupConfigFile t).isSome = true) (hkeys : strKeys p = true) :
    load_config (save_config st t p).2 t = p := by
  have hjson := jsonify_eq_self p hkeys
  unfold save_config load_config
  by_cases h : st.useDatabase = true
  · simp [h, hjson]
  · obtain ⟨fname, hf⟩ := Option.isSome_iff_exists.mp hdom
    simp only [h, if_false]
    rw [hf]
    simp [hjson]

/-- Witness for C2 (amended): a concrete string-keyed payload for the
"verification" domain through both backends. -/
theorem claim_C2_roundtrip_amended_witness :
    load_config (save_config dbStore "verification"
        (.pdict [(.kstr "5", .pint 3)])).2 "verification"
      = PyVal.pdict [(.kstr "5", .pint 3)]
    ∧ load_config (save_config fileStore "verification"
        (.pdict [(.kstr "5", .pint 3)])).2 "verification"
      = PyVal.pdict [(.kstr "5", .pint 3)] :=
  ⟨claim_C2_roundtrip_amended dbStore "verification" _ (by decide) (by decide),
   claim_C2_roundtrip_amended fileStore "verification" _ (by decide) (by decide)⟩

/-- C1: contrary to the claim, the join handler performs no raid
detection at all. After enabling raid protection at threshold 10, any
sequence of member joins — in particular 10 joins inside a 30-second
window — leaves the raid-protection state exactly as the enable command
wrote it: `recent_joins` is still empty, `locked_down` is still false,
and no join is ever recorded or classified (`on_member_join`,
main.py:751-903, never touches `raid_protection_config`). -/
theorem claim_C1_no_raid_detection (verif : VerifConfMap)
    (pending : PendingMap) (cfg cfg2 : RaidConfMap) (guild : Int)
    (joins : List (Int × Int × Int))
    (henable : raidprotection_enable cfg guild 10 "lockdown" = some cfg2) :
    (runJoins verif { pending := pending, raid := cfg2 } guild joins).raid = cfg2
    ∧ (runJoins verif { pending := pending, raid := cfg2 } guild joins).raid guild
        = some { enabled := true, threshold := 10, action := "lockdown",
                 recent_joins := [], locked_down := false } := by
  have hframe := runJoins_raid verif guild joins
    { pending := pending, raid := cfg2 }
  refine ⟨hframe, ?_⟩
  rw [hframe]
  injection henable with h
  rw [← h]
  simp

/-- Witness for C1: ten joins in under 20 seconds right after enabling at
threshold 10 — the window stays empty and no lockdown happens. -/
theorem claim_C1_no_raid_detection_witness :
    (runJoins (fun _ => none)
        { pending := emptyPending,
          raid := fun g => if g = 1 then
              some { enabled := true, threshold := 10, action := "lockdown",
                     recent_joins := [], locked_down := false }
            else none } 1
        [(101, 111, 0), (102, 222, 2), (103, 333, 4), (104, 444, 6),
         (105, 555, 8), (106, 666, 10), (107, 777, 12), (108, 888, 14),
         (109, 999, 16), (110, 123, 18)]).raid
      = (fun g => if g = 1 then
            some { enabled := true, threshold := 10, action := "lockdown",
                   recent_joins := [], locked_down := false }
          else none)
    ∧ (runJoins (fun _ => none)
        { pending := emptyPending,
          raid := fun g => if g = 1 then
              some { enabled := true, threshold := 10, action := "lockdown",
                     recent_joins := [], locked_down := false }
            else none } 1
        [(101, 111, 0), (102, 222, 2), (103, 333, 4), (104, 444, 6),
         (105, 555, 8), (106, 666, 10), (107, 777, 12), (108, 888, 14),
         (109, 999, 16), (110, 123, 18)]).raid 1
      = some { enabled := true, threshold := 10, action := "lockdown",
               recent_joins := [], locked_down := false } :=
  claim_C1_no_raid_detection (fun _ => none) emptyPending (fun _ => none)
    (fun g => if g = 1 then
        some { enabled := true, threshold := 10, action := "lockdown",
               recent_joins := [], locked_down := false }
      else none) 1
    [(101, 111, 0), (102, 222, 2), (103, 333, 4), (104, 444, 6),
     (105, 555, 8), (106, 666, 10), (107, 777, 12), (108, 888, 14),
     (109, 999, 16), (110, 123, 18)]
    rfl

end Goofguard
